import Mathlib

/-!
Verification of the corepack MessagePack encoder/decoder boundary
(`src/src/ser.rs`, `src/src/lib.rs`) through a shallow embedding.

Bytes are modelled as `Nat` values below 256. A serializer run is modelled
by the list of byte slices handed to the output sink (one inner list per
sink invocation), together with an outcome: normal completion, an error
from the error taxonomy, or a panic (an assertion failure inside the
`byteorder` write helpers, which demand a destination slice at least as
long as the value being written).

Serde values reaching a serializer through a generic `value.serialize(s)`
call are modelled by their chunk trace: the serialization logic of this
crate is sink-independent, so the same value emits the same chunk sequence
whether the sink is the caller's sink or the private buffer used for
unknown-length containers.
-/

namespace Corepack

/-- The error taxonomy. Modelled from the spec: `error.rs` is not under
`src/`; §4.4 lists `EndOfStream`, `TooBig`, `Invalid`/`Unsupported` and
`TypeMismatch` as the closed set of reasons. -/
inductive Reason where
  | EndOfStream
  | TooBig
  | Invalid
  | TypeMismatch
deriving DecidableEq

/-- Outcome of one serializer operation: normal return, an `Err` carrying a
reason, or a panic (possible only through the `byteorder` slice-length
assertion). -/
inductive Outcome where
  | ok
  | err (r : Reason)
  | panicked
deriving DecidableEq

/-- The observable behaviour of one serializer operation against an
always-accepting sink: the byte slices passed to the sink, in order
(one inner list per sink invocation), and the outcome. -/
structure SerOut where
  chunks : List (List Nat)
  outcome : Outcome
deriving DecidableEq

/-- All bytes delivered to the sink, flattened. -/
def SerOut.bytes (o : SerOut) : List Nat := o.chunks.flatten

/-- `try!`-style sequencing: run `a`; if it returned normally, run `b`
after it, otherwise stop with `a`'s chunks and outcome. -/
def SerOut.andThen (a b : SerOut) : SerOut :=
  match a.outcome with
  | .ok => ⟨a.chunks ++ b.chunks, b.outcome⟩
  | o => ⟨a.chunks, o⟩

/-! ### Format table

Modelled from the spec: `defs.rs` is not under `src/`. The tag bytes and
bounds are the MessagePack wire values required by spec §3/§4.1 and pinned
by the fixture tests inside `src/src/ser.rs` (`0xcc` = UINT8, `0xd0` = INT8,
`0xd1` = INT16, `0xd9` = STR8, fixstr mask `0xa0`, fixarray mask `0x90`,
`0xdc` = ARRAY16, fixmap mask `0x80`). -/

def FIXINT_MIN : Int := -32
def FIXINT_MAX : Int := 127
def NIL : Nat := 0xc0
def TRUE : Nat := 0xc3
def FALSE : Nat := 0xc2
def UINT8 : Nat := 0xcc
def UINT16 : Nat := 0xcd
def UINT32 : Nat := 0xce
def UINT64 : Nat := 0xcf
def INT8 : Nat := 0xd0
def INT16 : Nat := 0xd1
def INT32 : Nat := 0xd2
def INT64 : Nat := 0xd3
def FIXSTR_MASK : Nat := 0xa0
def STR8 : Nat := 0xd9
def STR16 : Nat := 0xda
def STR32 : Nat := 0xdb
def FIXARRAY_MASK : Nat := 0x90
def ARRAY16 : Nat := 0xdc
def ARRAY32 : Nat := 0xdd
def FIXMAP_MASK : Nat := 0x80
def MAP16 : Nat := 0xde
def MAP32 : Nat := 0xdf
def MAX_FIXSTR : Nat := 31
def MAX_STR8 : Nat := 255
def MAX_STR16 : Nat := 65535
def MAX_STR32 : Nat := 4294967295
def MAX_FIXARRAY : Nat := 15
def MAX_ARRAY16 : Nat := 65535
def MAX_ARRAY32 : Nat := 4294967295
def MAX_FIXMAP : Nat := 15
def MAX_MAP16 : Nat := 65535
def MAX_MAP32 : Nat := 4294967295

/-- Big-endian bytes of the low 16 bits, as `BigEndian::write_u16`/`write_i16`
lay them out. -/
def be16 (n : Nat) : List Nat := [n / 256 % 256, n % 256]

/-- Big-endian bytes of the low 32 bits. -/
def be32 (n : Nat) : List Nat :=
  [n / 16777216 % 256, n / 65536 % 256, n / 256 % 256, n % 256]

/-- Big-endian bytes of the low 64 bits. -/
def be64 (n : Nat) : List Nat :=
  [n / 72057594037927936 % 256, n / 281474976710656 % 256,
   n / 1099511627776 % 256, n / 4294967296 % 256,
   n / 16777216 % 256, n / 65536 % 256, n / 256 % 256, n % 256]

/-- Two's-complement bit pattern of `v` truncated to `w` bits, as `Nat`
(the meaning of Rust's `as iN`/`as uN` casts followed by a byte write). -/
def bits (w : Nat) (v : Int) : Nat := (v % (2 ^ w : Nat)).toNat

/-- `Serializer::serialize_i64` from `src/src/ser.rs` lines 57–91.

Each branch reproduces the source: the fixint branch outputs the single
low byte of the little-endian `i16` buffer; int8/uint8 output the tag and
that low byte; int16/uint16/int32/int64 output the tag followed by the
big-endian payload of the cast value.  The uint32 branch of the source
allocates `[UINT32; U16_BYTES + 1]` — a 3-byte buffer — and then calls
`BigEndian::write_u32` on its 2-byte tail, which fails `byteorder`'s
slice-length assertion: for every value reaching that branch the function
panics before any output call. -/
def serialize_i64 (value : Int) : SerOut :=
  if FIXINT_MIN ≤ value ∧ value ≤ FIXINT_MAX then
    ⟨[[bits 16 value % 256]], .ok⟩
  else if -128 ≤ value ∧ value ≤ 127 then
    ⟨[[INT8, bits 16 value % 256]], .ok⟩
  else if 0 ≤ value ∧ value ≤ 255 then
    ⟨[[UINT8, bits 16 value % 256]], .ok⟩
  else if -32768 ≤ value ∧ value ≤ 32767 then
    ⟨[INT16 :: be16 (bits 16 value)], .ok⟩
  else if 0 ≤ value ∧ value ≤ 65535 then
    ⟨[UINT16 :: be16 (bits 16 value)], .ok⟩
  else if -2147483648 ≤ value ∧ value ≤ 2147483647 then
    ⟨[INT32 :: be32 (bits 32 value)], .ok⟩
  else if 0 ≤ value ∧ value ≤ 4294967295 then
    ⟨[], .panicked⟩
  else
    ⟨[INT64 :: be64 (bits 64 value)], .ok⟩

/-- `Serializer::serialize_u64` from `src/src/ser.rs` lines 109–127. -/
def serialize_u64 (value : Nat) : SerOut :=
  if value ≤ 127 then
    ⟨[[value % 256]], .ok⟩
  else if value ≤ 255 then
    ⟨[[UINT8, value % 256]], .ok⟩
  else if value ≤ 65535 then
    ⟨[UINT16 :: be16 (value % 65536)], .ok⟩
  else if value ≤ 4294967295 then
    ⟨[UINT32 :: be32 (value % 4294967296)], .ok⟩
  else
    ⟨[UINT64 :: be64 (value % 18446744073709551616)], .ok⟩

/-- `serialize_usize` widens to the 64-bit unsigned path
(`src/src/ser.rs` lines 129–131); `usize` is at most 64 bits wide. -/
def serialize_usize (value : Nat) : SerOut := serialize_u64 value

/-- `Serializer::serialize_str` from `src/src/ser.rs` lines 157–175. A
string is its UTF-8 byte list; `value.len()` is the byte length. The
header is one sink call, the raw bytes a second; the over-large case
returns `Err(TooBig)` before any output call. -/
def serialize_str (value : List Nat) : SerOut :=
  if value.length ≤ MAX_FIXSTR then
    ⟨[[value.length % 256 ||| FIXSTR_MASK], value], .ok⟩
  else if value.length ≤ MAX_STR8 then
    ⟨[[STR8, value.length % 256], value], .ok⟩
  else if value.length ≤ MAX_STR16 then
    ⟨[STR16 :: be16 (value.length % 65536), value], .ok⟩
  else if value.length ≤ MAX_STR32 then
    ⟨[STR32 :: be32 (value.length % 4294967296), value], .ok⟩
  else
    ⟨[], .err .TooBig⟩

/-- `serialize_unit` (`src/src/ser.rs` lines 184–186): the single NIL byte. -/
def serialize_unit : SerOut := ⟨[[NIL]], .ok⟩

/-- `serialize_none` (`src/src/ser.rs` lines 210–212) delegates to
`serialize_unit`. -/
def serialize_none : SerOut := serialize_unit

/-- `serialize_some` (`src/src/ser.rs` lines 214–217) runs
`value.serialize(self)`: in the chunk-trace model the operation's
behaviour is exactly the inner value's behaviour. -/
def serialize_some (value : SerOut) : SerOut := value

/-- The array-size header written by `serialize_seq(Some(size))` and
`serialize_seq_end` (`src/src/ser.rs` lines 219–242 and 264–284). -/
def seqHeaderChunk (size : Nat) : Except Reason (List Nat) :=
  if size ≤ MAX_FIXARRAY then
    .ok [size % 256 ||| FIXARRAY_MASK]
  else if size ≤ MAX_ARRAY16 then
    .ok (ARRAY16 :: be16 (size % 65536))
  else if size ≤ MAX_ARRAY32 then
    .ok (ARRAY32 :: be32 (size % 4294967296))
  else
    .error .TooBig

/-- The map-size header written by `serialize_map(Some(size))` and
`serialize_map_end` (`src/src/ser.rs` lines 329–349 and 361–381). -/
def mapHeaderChunk (size : Nat) : Except Reason (List Nat) :=
  if size ≤ MAX_FIXMAP then
    .ok [size % 256 ||| FIXMAP_MASK]
  else if size ≤ MAX_MAP16 then
    .ok (MAP16 :: be16 (size % 65536))
  else if size ≤ MAX_MAP32 then
    .ok (MAP32 :: be32 (size % 4294967296))
  else
    .error .TooBig

/-- A header write as a serializer step: one sink call on success,
`Err(TooBig)` with no sink call otherwise. -/
def headerSer (h : Except Reason (List Nat)) : SerOut :=
  match h with
  | .ok c => ⟨[c], .ok⟩
  | .error r => ⟨[], .err r⟩

/-- One `serialize_seq_elt` call in the `Buffered` state
(`src/src/ser.rs` lines 248–262): the element's chunks are appended to the
private buffer by the nested serializer and the count is incremented. -/
def bufferElem (st : Nat × List Nat) (e : List (List Nat)) : Nat × List Nat :=
  (st.1 + 1, st.2 ++ e.flatten)

/-- The element loop of an unknown-length sequence: repeated
`serialize_seq_elt` calls threaded through the `Buffered` state. -/
def bufferElems : List (List (List Nat)) → Nat × List Nat → Nat × List Nat
  | [], st => st
  | e :: rest, st => bufferElems rest (bufferElem st e)

/-- `serialize_seq_end` (`src/src/ser.rs` lines 264–284): in the
`Buffered` state, write the header computed from the final count, then
the buffer in one sink call; in the `Immediate` state (`None`), no-op. -/
def serialize_seq_end (state : Option (Nat × List Nat)) : SerOut :=
  match state with
  | none => ⟨[], .ok⟩
  | some (size, buffer) =>
    match seqHeaderChunk size with
    | .error r => ⟨[], .err r⟩
    | .ok h => ⟨[h, buffer], .ok⟩

/-- `serialize_map_end` (`src/src/ser.rs` lines 361–381): same as
`serialize_seq_end` with the map ladder. -/
def serialize_map_end (state : Option (Nat × List Nat)) : SerOut :=
  match state with
  | none => ⟨[], .ok⟩
  | some (size, buffer) =>
    match mapHeaderChunk size with
    | .error r => ⟨[], .err r⟩
    | .ok h => ⟨[h, buffer], .ok⟩

/-- Encoding a sequence of elements with the length known up front:
`serialize_seq(Some(len))` writes the header, each `serialize_seq_elt`
with `Immediate` state serializes straight to the sink, and
`serialize_seq_end(None)` is a no-op. -/
def serialize_seq_known (elems : List (List (List Nat))) : SerOut :=
  match seqHeaderChunk elems.length with
  | .error r => ⟨[], .err r⟩
  | .ok h => ⟨h :: elems.flatten, .ok⟩

/-- Encoding the same elements with unknown length:
`serialize_seq(None)` starts in `Buffered(0, [])`, the elements are
buffered and counted, and `serialize_seq_end` writes header plus buffer. -/
def serialize_seq_unknown (elems : List (List (List Nat))) : SerOut :=
  serialize_seq_end (some (bufferElems elems (0, [])))

/-- Encoding a map with the entry count known up front:
`serialize_map(Some(len))` writes the header and each
key/value is serialized straight to the sink. An entry is a pair of the
key's chunk trace and the value's chunk trace. -/
def serialize_map_known (entries : List (List (List Nat) × List (List Nat))) :
    SerOut :=
  match mapHeaderChunk entries.length with
  | .error r => ⟨[], .err r⟩
  | .ok h => ⟨h :: (entries.map (fun kv => kv.1 ++ kv.2)).flatten, .ok⟩

/-- The key/value loop of an unknown-length map: `serialize_map_key` and
`serialize_map_value` (`src/src/ser.rs` lines 351–359) each delegate to
`serialize_seq_elt`, so each key and each value increments the count. -/
def bufferEntries : List (List (List Nat) × List (List Nat)) →
    Nat × List Nat → Nat × List Nat
  | [], st => st
  | kv :: rest, st => bufferEntries rest (bufferElem (bufferElem st kv.1) kv.2)

/-- Encoding a map with unknown length: `serialize_map(None)` starts in
`Buffered(0, [])`, keys and values are buffered and counted, and
`serialize_map_end` writes header plus buffer. -/
def serialize_map_unknown (entries : List (List (List Nat) × List (List Nat))) :
    SerOut :=
  serialize_map_end (some (bufferEntries entries (0, [])))

/-- The concatenated key/value bytes an unknown-length map accumulates in
its private buffer. -/
def mapPayload (entries : List (List (List Nat) × List (List Nat))) : List Nat :=
  (entries.map (fun kv => kv.1.flatten ++ kv.2.flatten)).flatten

/-- The field loop shared by `serialize_struct_elt` and
`serialize_struct_variant_elt` (`src/src/ser.rs` lines 387–391 and
414–417) in the `Immediate` state: each field name is serialized by
`serialize_str` and the value straight to the sink. A field is a pair of
the name's UTF-8 bytes and the value's chunk trace. -/
def serialize_struct_fields : List (List Nat × List (List Nat)) → SerOut
  | [] => ⟨[], .ok⟩
  | kv :: rest =>
    ((serialize_str kv.1).andThen ⟨kv.2, .ok⟩).andThen
      (serialize_struct_fields rest)

/-- The elements of a known-length tuple, each serialized straight to the
sink. -/
def serialize_elems : List (List (List Nat)) → SerOut
  | [] => ⟨[], .ok⟩
  | e :: rest => (⟨e, .ok⟩ : SerOut).andThen (serialize_elems rest)

/-- `serialize_tuple_variant` plus its element and end calls
(`src/src/ser.rs` lines 312–327): `serialize_tuple(len + 1)` writes the
array header, the variant index goes through `serialize_usize` as the
first element, the payload elements follow, and the end call is a no-op. -/
def serialize_tuple_variant_enc (index : Nat)
    (elems : List (List (List Nat))) : SerOut :=
  ((headerSer (seqHeaderChunk (elems.length + 1))).andThen
    (serialize_usize index)).andThen (serialize_elems elems)

/-- `serialize_newtype_variant` (`src/src/ser.rs` lines 203–208):
`serialize_tuple_variant` with `len = 1`, one element, then end. -/
def serialize_newtype_variant_enc (index : Nat) (value : List (List Nat)) :
    SerOut :=
  ((headerSer (seqHeaderChunk 2)).andThen (serialize_usize index)).andThen
    (⟨value, .ok⟩ : SerOut)

/-- `serialize_newtype_struct` (`src/src/ser.rs` lines 196–201):
`serialize_tuple_struct(name, 1)` writes the 1-element array header, then
the inner value is serialized straight to the sink, then the no-op end. -/
def serialize_newtype_struct_enc (value : List (List Nat)) : SerOut :=
  (headerSer (seqHeaderChunk 1)).andThen (⟨value, .ok⟩ : SerOut)

/-- `serialize_struct_variant` plus its element and end calls
(`src/src/ser.rs` lines 397–426): `serialize_tuple(2)` writes the fixarray
header for two elements, the variant index goes through `serialize_usize`,
`serialize_struct` writes the map header for the field count, the fields
follow as name/value pairs, and both end calls are no-ops. -/
def serialize_struct_variant_enc (index : Nat)
    (fields : List (List Nat × List (List Nat))) : SerOut :=
  (((headerSer (seqHeaderChunk 2)).andThen (serialize_usize index)).andThen
    (headerSer (mapHeaderChunk fields.length))).andThen
    (serialize_struct_fields fields)

/-! ### Decoder boundary -/

/-- The byte-source closure built by `from_bytes` (`src/src/lib.rs` lines
60–76): reading `n` bytes at `position` fails with `EndOfStream` when it
would run past the end of the slice, and otherwise returns the bytes and
the advanced position. -/
def sliceRead (bytes : List Nat) (position n : Nat) :
    Except Reason (List Nat × Nat) :=
  if bytes.length < position + n then
    .error .EndOfStream
  else
    .ok ((bytes.drop position).take n, position + n)

/-- The byte-source closure built by `from_iter` (`src/src/lib.rs` lines
42–57): the buffer of size `n` is filled one pulled byte at a time,
failing with `EndOfStream` when the iterator is exhausted mid-fill. -/
def iterFill (iter : List Nat) : Nat → Except Reason (List Nat × List Nat)
  | 0 => .ok ([], iter)
  | n + 1 =>
    match iter with
    | [] => .error .EndOfStream
    | b :: rest =>
      match iterFill rest n with
      | .error r => .error r
      | .ok (bs, rest2) => .ok (b :: bs, rest2)

/-- Modelled from the spec: `de.rs` is not under `src/`; §4.3 says the
Decoder "reads exactly one tag byte first" through the Byte Source. This
is the first step of every `from_bytes` decode, at position 0. -/
def decodeFirstTag_fromBytes (bytes : List Nat) : Except Reason Nat :=
  match sliceRead bytes 0 1 with
  | .error r => .error r
  | .ok (bs, _) => .ok (bs.headD 0)

/-- Modelled from the spec: `de.rs` is not under `src/`; §4.3 says the
Decoder "reads exactly one tag byte first" through the Byte Source. This
is the first step of every `from_iter` decode. -/
def decodeFirstTag_fromIter (iter : List Nat) : Except Reason Nat :=
  match iterFill iter 1 with
  | .error r => .error r
  | .ok (bs, _) => .ok (bs.headD 0)

/-! ### Spec-side definitions

These follow the spec's words rather than the source, for the refinement
claims that compare the implementation to the spec's description. -/

/-- The spec's unsigned ladder (§4.2, §8 minimality): "a single byte equal
to the value if ≤ 127, else the UINT8/UINT16/UINT32/UINT64 tag followed by
the big-endian payload of the smallest sufficient width". -/
def specUintBytes (v : Nat) : List Nat :=
  if v ≤ 127 then [v]
  else if v ≤ 255 then [UINT8, v]
  else if v ≤ 65535 then UINT16 :: be16 v
  else if v ≤ 4294967295 then UINT32 :: be32 v
  else UINT64 :: be64 v

/-- The spec's string header: the length-class tag and length field that
precede the raw bytes (fixstr ≤ 31 embedding the length in the low bits
of `0xa0`, str8 ≤ 255, str16 ≤ 65535, str32 ≤ 4294967295). Meaningful for
lengths within the largest class. -/
def specStrHeader (n : Nat) : List Nat :=
  if n ≤ 31 then [0xa0 + n]
  else if n ≤ 255 then [0xd9, n]
  else if n ≤ 65535 then 0xda :: be16 n
  else 0xdb :: be32 n

/-- The spec's string encoding (§4.2): "length-class tag (fixstr ≤31
bytes, str8 ≤255, str16 ≤65535, str32 ≤4294967295) followed by the raw
UTF-8 bytes; a string exceeding the largest class fails with a 'too
large' error and emits nothing further for that value". The header and
the raw bytes are the two sink calls of the operation. -/
def specStrSerOut (s : List Nat) : SerOut :=
  if s.length ≤ 4294967295 then ⟨[specStrHeader s.length, s], .ok⟩
  else ⟨[], .err .TooBig⟩

/-- The spec's array header (§4.2): fixarray for ≤ 15 elements embedding
the count in the low bits of `0x90`, else array16/array32 tag plus
big-endian count. Meaningful for counts within the largest class. -/
def specArrayHeader (n : Nat) : List Nat :=
  if n ≤ 15 then [0x90 + n]
  else if n ≤ 65535 then 0xdc :: be16 n
  else 0xdd :: be32 n

/-- The spec's map header (§4.2): fixmap for ≤ 15 entries embedding the
count in the low bits of `0x80`, else map16/map32 tag plus big-endian
count. Meaningful for counts within the largest class. -/
def specMapHeader (n : Nat) : List Nat :=
  if n ≤ 15 then [0x80 + n]
  else if n ≤ 65535 then 0xde :: be16 n
  else 0xdf :: be32 n

/-! ### Helper lemmas -/

theorem lor_mask_160 {n : Nat} (h : n ≤ 31) : n % 256 ||| 160 = 160 + n := by
  rw [Nat.mod_eq_of_lt (by omega)]
  interval_cases n <;> rfl

theorem lor_mask_144 {n : Nat} (h : n ≤ 15) : n % 256 ||| 144 = 144 + n := by
  rw [Nat.mod_eq_of_lt (by omega)]
  interval_cases n <;> rfl

theorem lor_mask_128 {n : Nat} (h : n ≤ 15) : n % 256 ||| 128 = 128 + n := by
  rw [Nat.mod_eq_of_lt (by omega)]
  interval_cases n <;> rfl

theorem serialize_u64_spec {v : Nat} (h : v < 18446744073709551616) :
    serialize_u64 v = ⟨[specUintBytes v], .ok⟩ := by
  unfold serialize_u64 specUintBytes
  split_ifs <;> rw [Nat.mod_eq_of_lt (by omega)]

theorem serialize_str_eq_spec (s : List Nat) :
    serialize_str s = specStrSerOut s := by
  unfold serialize_str specStrSerOut specStrHeader
  unfold MAX_FIXSTR MAX_STR8 MAX_STR16 MAX_STR32 FIXSTR_MASK STR8 STR16 STR32
  split_ifs with h1 h2 h3 h4 h5 <;> first
    | rfl
    | omega
    | rw [lor_mask_160 h1]
    | rw [Nat.mod_eq_of_lt (by omega)]

theorem serialize_str_ok {s : List Nat} (h : s.length ≤ 4294967295) :
    serialize_str s = ⟨[specStrHeader s.length, s], .ok⟩ := by
  rw [serialize_str_eq_spec, specStrSerOut, if_pos h]

theorem flatten_field_chunks (fields : List (List Nat × List (List Nat))) :
    ((fields.map (fun kv => specStrHeader kv.1.length :: kv.1 :: kv.2)).flatten).flatten =
      (fields.map (fun kv =>
        specStrHeader kv.1.length ++ (kv.1 ++ kv.2.flatten))).flatten := by
  induction fields with
  | nil => rfl
  | cons kv rest ih =>
    simp [ih, List.append_assoc]

theorem seqHeaderChunk_spec {n : Nat} (h : n ≤ 4294967295) :
    seqHeaderChunk n = .ok (specArrayHeader n) := by
  unfold seqHeaderChunk specArrayHeader
  unfold MAX_FIXARRAY MAX_ARRAY16 MAX_ARRAY32 FIXARRAY_MASK ARRAY16 ARRAY32
  split_ifs with h1 h2 <;> first
    | rw [lor_mask_144 h1]
    | rw [Nat.mod_eq_of_lt (by omega)]

theorem mapHeaderChunk_spec {n : Nat} (h : n ≤ 4294967295) :
    mapHeaderChunk n = .ok (specMapHeader n) := by
  unfold mapHeaderChunk specMapHeader
  unfold MAX_FIXMAP MAX_MAP16 MAX_MAP32 FIXMAP_MASK MAP16 MAP32
  split_ifs with h1 h2 <;> first
    | rw [lor_mask_128 h1]
    | rw [Nat.mod_eq_of_lt (by omega)]

theorem andThen_ok (c1 : List (List Nat)) (b : SerOut) :
    SerOut.andThen ⟨c1, .ok⟩ b = ⟨c1 ++ b.chunks, b.outcome⟩ := rfl

theorem bufferElems_spec (es : List (List (List Nat))) (c : Nat) (b : List Nat) :
    bufferElems es (c, b) = (c + es.length, b ++ (es.map List.flatten).flatten) := by
  induction es generalizing c b with
  | nil => simp [bufferElems]
  | cons e rest ih =>
    rw [bufferElems, bufferElem, ih]
    simp only [List.map_cons, List.flatten_cons, List.length_cons, Prod.mk.injEq]
    exact ⟨by omega, by simp [List.append_assoc]⟩

theorem bufferEntries_spec (entries : List (List (List Nat) × List (List Nat)))
    (c : Nat) (b : List Nat) :
    bufferEntries entries (c, b) = (c + 2 * entries.length, b ++ mapPayload entries) := by
  induction entries generalizing c b with
  | nil => simp [bufferEntries, mapPayload]
  | cons kv rest ih =>
    rw [bufferEntries, bufferElem, bufferElem, ih]
    simp only [mapPayload, List.map_cons, List.flatten_cons, List.length_cons,
      Prod.mk.injEq]
    exact ⟨by omega, by simp [List.append_assoc]⟩

theorem serialize_elems_spec (es : List (List (List Nat))) :
    serialize_elems es = ⟨es.flatten, .ok⟩ := by
  induction es with
  | nil => rfl
  | cons e rest ih =>
    rw [serialize_elems, ih, andThen_ok]
    rfl

theorem serialize_struct_fields_spec (fields : List (List Nat × List (List Nat)))
    (h : ∀ kv ∈ fields, kv.1.length ≤ 4294967295) :
    serialize_struct_fields fields =
      ⟨(fields.map (fun kv => [specStrHeader kv.1.length, kv.1] ++ kv.2)).flatten,
       .ok⟩ := by
  induction fields with
  | nil => rfl
  | cons kv rest ih =>
    rw [serialize_struct_fields, serialize_str_ok (h kv (by simp)),
      ih (fun x hx => h x (by simp [hx]))]
    rw [andThen_ok]
    rfl

/-! ### Claim theorems -/

/-- C1: the claim says that for every value in [2^31, 2^32-1] the encoder
writes the UINT32 tag followed by a 4-byte big-endian payload. The code
cannot: in that branch `serialize_i64` allocates a 3-byte buffer
(`[UINT32; U16_BYTES + 1]`) and asks `BigEndian::write_u32` to place 4
bytes into its 2-byte tail, failing the `byteorder` length assertion, so
the call panics before any sink invocation. Evaluated here at the
smallest failing input, 2147483648. -/
theorem serialize_i64_uint32_bug :
    serialize_i64 2147483648 = ⟨[], .panicked⟩ := by decide

/-- C2: the claim says `serialize_i64` never panics for any 64-bit signed
input. In fact it panics exactly on [2^31, 2^32-1], where the source
writes a 4-byte big-endian value into a 2-byte slice; every other input
returns normally. -/
theorem serialize_i64_panic_iff (v : Int)
    (h1 : -9223372036854775808 ≤ v) (h2 : v ≤ 9223372036854775807) :
    (serialize_i64 v).outcome = .panicked ↔
      2147483648 ≤ v ∧ v ≤ 4294967295 := by
  unfold serialize_i64 FIXINT_MIN FIXINT_MAX
  split_ifs <;> simp_all <;> omega

/-- Witness for C2's theorem at the concrete input 2147483649. -/
theorem serialize_i64_panic_iff_witness :
    (serialize_i64 2147483649).outcome = .panicked :=
  (serialize_i64_panic_iff 2147483649 (by decide) (by decide)).mpr
    (by constructor <;> decide)

/-- C3: for every unsigned 64-bit integer, `serialize_u64` emits exactly
the spec's minimal ladder — single byte if ≤ 127, else the smallest
sufficient UINT8/UINT16/UINT32/UINT64 tag plus big-endian payload — and
the three fixtures hold: 23 ↦ [0x17], signed -5 ↦ [0xFB], 154 ↦
[0xCC, 0x9A]. -/
theorem serialize_u64_minimal (v : Nat) (h : v < 18446744073709551616) :
    serialize_u64 v = ⟨[specUintBytes v], .ok⟩ ∧
    serialize_u64 23 = ⟨[[0x17]], .ok⟩ ∧
    serialize_i64 (-5) = ⟨[[0xfb]], .ok⟩ ∧
    serialize_u64 154 = ⟨[[0xcc, 0x9a]], .ok⟩ :=
  ⟨serialize_u64_spec h, by decide, by decide, by decide⟩

/-- Witness for C3's theorem at the concrete input 300. -/
theorem serialize_u64_minimal_witness :
    serialize_u64 300 = ⟨[specUintBytes 300], .ok⟩ ∧
    serialize_u64 23 = ⟨[[0x17]], .ok⟩ ∧
    serialize_i64 (-5) = ⟨[[0xfb]], .ok⟩ ∧
    serialize_u64 154 = ⟨[[0xcc, 0x9a]], .ok⟩ :=
  serialize_u64_minimal 300 (by decide)

/-- C4: for every string, `serialize_str` writes the spec's length-class
header (fixstr ≤ 31, str8 ≤ 255, str16 ≤ 65535, str32 ≤ 4294967295)
followed by the raw bytes; a string whose byte length exceeds 4294967295
returns `TooBig` having invoked the sink zero times, exemplified at
length 4294967296. -/
theorem serialize_str_layout (s : List Nat) :
    serialize_str s = specStrSerOut s ∧
    serialize_str (List.replicate 4294967296 0) = ⟨[], .err .TooBig⟩ := by
  refine ⟨serialize_str_eq_spec s, ?_⟩
  rw [serialize_str_eq_spec, specStrSerOut, List.length_replicate,
    if_neg (by omega)]

/-- C5 counterexample: for the one-entry map whose key serializes to the
byte 0x00 and whose value serializes to 0x01, the unknown-length path
emits [0x82, 0x00, 0x01] — a fixmap header claiming two entries — while
the known-length path emits [0x81, 0x00, 0x01], so the claimed
byte-for-byte agreement fails on maps. -/
theorem map_unknown_length_header_mismatch :
    (serialize_map_unknown [([[0]], [[1]])]).bytes ≠
      (serialize_map_known [([[0]], [[1]])]).bytes := by decide

/-- C5 amended: for sequences, the unknown-length (buffered) encoding
produces exactly the bytes and outcome of the known-length encoding; for
maps, the unknown-length path increments its count once per key and once
per value, so at container end it writes the header computed from twice
the entry count, followed by the buffered key/value bytes. -/
theorem seq_unknown_eq_known_map_doubled :
    (∀ es : List (List (List Nat)),
      (serialize_seq_unknown es).bytes = (serialize_seq_known es).bytes ∧
      (serialize_seq_unknown es).outcome = (serialize_seq_known es).outcome) ∧
    (∀ entries : List (List (List Nat) × List (List Nat)),
      serialize_map_unknown entries =
        serialize_map_end (some (2 * entries.length, mapPayload entries))) := by
  constructor
  · intro es
    rw [serialize_seq_unknown, bufferElems_spec]
    simp only [Nat.zero_add, List.nil_append]
    rw [serialize_seq_end, serialize_seq_known]
    cases h : seqHeaderChunk es.length with
    | error r => exact ⟨rfl, rfl⟩
    | ok hd =>
      constructor
      · simp [SerOut.bytes, List.flatten_flatten]
      · rfl
  · intro entries
    rw [serialize_map_unknown, bufferEntries_spec]
    simp

/-- C6: a struct variant with index `i` and fields `fields` encodes as the
2-element sequence header (fixarray byte 0x92), then `i` as an unsigned
integer, then a map of known length `fields.length` holding the
(field-name string, value) pairs in declaration order — the double
wrapping [index, fields-as-map], not a flattened map. -/
theorem struct_variant_layout (index : Nat)
    (fields : List (List Nat × List (List Nat)))
    (h1 : index < 18446744073709551616)
    (h2 : fields.length ≤ 4294967295)
    (h3 : ∀ kv ∈ fields, kv.1.length ≤ 4294967295) :
    (serialize_struct_variant_enc index fields).outcome = .ok ∧
    (serialize_struct_variant_enc index fields).bytes =
      0x92 :: (specUintBytes index ++ specMapHeader fields.length ++
        (fields.map (fun kv =>
          specStrHeader kv.1.length ++ kv.1 ++ kv.2.flatten)).flatten) := by
  have hhdr : headerSer (seqHeaderChunk 2) = ⟨[[146]], .ok⟩ := by decide
  rw [serialize_struct_variant_enc, hhdr, serialize_usize,
    serialize_u64_spec h1, mapHeaderChunk_spec h2,
    serialize_struct_fields_spec fields h3]
  constructor
  · simp [andThen_ok, headerSer]
  · simp [andThen_ok, headerSer, SerOut.bytes, flatten_field_chunks,
      List.append_assoc]

/-- Witness for C6's theorem: variant index 1 with the single field named
"a" (byte 97) whose value serializes to the byte 0x05. -/
theorem struct_variant_layout_witness :
    (serialize_struct_variant_enc 1 [([97], [[5]])]).outcome = .ok ∧
    (serialize_struct_variant_enc 1 [([97], [[5]])]).bytes =
      0x92 :: (specUintBytes 1 ++ specMapHeader 1 ++
        ([([97], [[5]])].map (fun kv =>
          specStrHeader kv.1.length ++ kv.1 ++ kv.2.flatten)).flatten) := by
  have h := struct_variant_layout 1 [([97], [[5]])] (by decide) (by decide)
    (by decide)
  simpa using h

/-- C7: a tuple variant with index `i` and `n` payload elements encodes as
the (n+1)-element sequence header, then `i` as an unsigned integer, then
the `n` element encodings in order; a newtype variant is exactly the
`n = 1` case. -/
theorem tuple_variant_layout (index : Nat) (elems : List (List (List Nat)))
    (value : List (List Nat))
    (h1 : index < 18446744073709551616)
    (h2 : elems.length + 1 ≤ 4294967295) :
    (serialize_tuple_variant_enc index elems).outcome = .ok ∧
    (serialize_tuple_variant_enc index elems).bytes =
      specArrayHeader (elems.length + 1) ++ specUintBytes index ++
        (elems.map List.flatten).flatten ∧
    serialize_newtype_variant_enc index value =
      serialize_tuple_variant_enc index [value] := by
  refine ⟨?_, ?_, ?_⟩
  · rw [serialize_tuple_variant_enc, seqHeaderChunk_spec h2, serialize_usize,
      serialize_u64_spec h1, serialize_elems_spec]
    simp [andThen_ok, headerSer]
  · rw [serialize_tuple_variant_enc, seqHeaderChunk_spec h2, serialize_usize,
      serialize_u64_spec h1, serialize_elems_spec]
    simp [andThen_ok, headerSer, SerOut.bytes, List.append_assoc,
      List.flatten_flatten]
  · rw [serialize_newtype_variant_enc, serialize_tuple_variant_enc,
      serialize_usize, serialize_u64_spec h1]
    simp [andThen_ok, headerSer, serialize_elems_spec]

/-- Witness for C7's theorem: variant index 7 with two payload elements
serializing to the bytes 0x01 and 0x02 (and newtype payload 0x09). -/
theorem tuple_variant_layout_witness :
    (serialize_tuple_variant_enc 7 [[[1]], [[2]]]).outcome = .ok ∧
    (serialize_tuple_variant_enc 7 [[[1]], [[2]]]).bytes =
      specArrayHeader ([[[1]], [[2]]].length + 1) ++ specUintBytes 7 ++
        ([[[1]], [[2]]].map List.flatten).flatten ∧
    serialize_newtype_variant_enc 7 [[9]] =
      serialize_tuple_variant_enc 7 [[[9]]] :=
  tuple_variant_layout 7 [[[1]], [[2]]] [[9]] (by decide) (by decide)

/-- The iterator byte-source closure of `from_iter`, in closed form:
filling an `n`-byte buffer succeeds exactly when the iterator still holds
at least `n` bytes, and fails with `EndOfStream` otherwise. -/
theorem iterFill_eq (iter : List Nat) (n : Nat) :
    iterFill iter n = if iter.length < n then .error .EndOfStream
      else .ok (iter.take n, iter.drop n) := by
  induction n generalizing iter with
  | zero => simp [iterFill]
  | succ m ih =>
    cases iter with
    | nil => simp [iterFill]
    | cons b rest =>
      rw [iterFill, ih rest]
      by_cases h : rest.length < m
      · rw [if_pos h, if_pos (by simp; omega)]
      · rw [if_neg h, if_neg (by simp; omega)]
        simp

/-- C8: decoding from the empty byte slice and from an exhausted iterator
both fail with `EndOfStream` at the decoder's first one-byte tag read;
more generally the slice source fails with `EndOfStream` exactly when a
read would run past the end of the slice, and the iterator source exactly
when the iterator holds fewer bytes than requested. -/
theorem decode_end_of_stream :
    decodeFirstTag_fromBytes [] = .error .EndOfStream ∧
    decodeFirstTag_fromIter [] = .error .EndOfStream ∧
    (∀ (bytes : List Nat) (position n : Nat),
      sliceRead bytes position n = .error .EndOfStream ↔
        bytes.length < position + n) ∧
    (∀ (iter : List Nat) (n : Nat),
      iterFill iter n = .error .EndOfStream ↔ iter.length < n) := by
  refine ⟨by rfl, by rfl, ?_, ?_⟩
  · intro bytes position n
    rw [sliceRead]
    split_ifs with h <;> simp [h]
  · intro iter n
    rw [iterFill_eq]
    split_ifs with h <;> simp [h]

/-- C9: `Some` is invisible on the wire — `serialize_some` is exactly the
inner value's serialization — and `serialize_none` delegates to
`serialize_unit`, both emitting the single NIL byte 0xc0, so `None` and
unit are indistinguishable from the bytes alone. -/
theorem option_wire_transparent :
    (∀ v : SerOut, serialize_some v = v) ∧
    serialize_none = serialize_unit ∧
    SerOut.bytes serialize_none = [0xc0] ∧
    SerOut.bytes serialize_unit = [0xc0] :=
  ⟨fun _ => rfl, rfl, rfl, rfl⟩

/-- C10: a non-variant newtype struct is not transparent: for every inner
value, `serialize_newtype_struct` emits the 1-element fixarray header
byte 0x91 followed by the inner value's encoding, which always differs
from the inner encoding alone. -/
theorem newtype_struct_not_transparent (value : List (List Nat)) :
    (serialize_newtype_struct_enc value).outcome = .ok ∧
    (serialize_newtype_struct_enc value).bytes = 0x91 :: value.flatten ∧
    (serialize_newtype_struct_enc value).bytes ≠ value.flatten := by
  have hh : headerSer (seqHeaderChunk 1) = ⟨[[145]], .ok⟩ := by decide
  rw [serialize_newtype_struct_enc, hh, andThen_ok]
  refine ⟨rfl, by simp [SerOut.bytes], ?_⟩
  intro contra
  have hl := congrArg List.length contra
  simp [SerOut.bytes] at hl

end Corepack
